import Mathlib

/-!
Verification of the extraction-and-correlation engine of `lsishow.py`.

The program inventories an LSI storage controller and its drives by parsing
the text output of external tools.  Strings are embedded as `List Char`
(written `Str` below); each definition mirrors one Python function or code
block of `src/lsishow.py`, with line references given in the doc comments.
Fallible steps are embedded with `Option`; an uncaught Python exception in
the presentation phase is embedded as `none`.
-/

set_option linter.unusedVariables false

/-- Strings of the Python source, embedded as lists of characters. -/
abbrev Str := List Char

/-- Sentinel used throughout the script for absent values (the literal
string seen at lines 167-174 and in all dictionary-lookup defaults). -/
def naStr : Str := ("N/A").data

/-- ANSI escape for red, `Colors.RED` (line 6). -/
def ansiRed : Str := ("\u001B[91m").data

/-- ANSI escape for green, `Colors.GREEN` (line 7). -/
def ansiGreen : Str := ("\u001B[92m").data

/-- ANSI escape for yellow, `Colors.YELLOW` (line 8). -/
def ansiYellow : Str := ("\u001B[93m").data

/-- ANSI escape ending coloring, `Colors.RESET` (line 9). -/
def ansiReset : Str := ("\u001B[0m").data

/-- The degree-Celsius marker checked by `colorize_temp` (line 31). -/
def degC : Str := ("°C").data

/-- Index of the first occurrence of `needle` in the haystack, as in the
Python substring search used by `in` and `str.find` (absence is `none`
where Python returns `-1`). -/
def findSub (needle : Str) : Str → Option Nat
  | [] => if needle.isEmpty then some 0 else none
  | c :: cs =>
      if needle.isPrefixOf (c :: cs) then some 0
      else (findSub needle cs).map (· + 1)

/-- Python substring membership `needle in hay`. -/
def containsSub (needle hay : Str) : Bool := (findSub needle hay).isSome

/-- Numeric value of a digit string, as Python `int` applied to a string of
decimal digits. -/
def natOfDigits (s : Str) : Nat := s.foldl (fun n c => 10 * n + (c.toNat - 48)) 0

/-- First maximal run of decimal digits in a string: the capture group of
the Python pattern for one or more digits, used for slot ids (line 240)
and the temperature value (line 36). -/
def firstDigitRun (s : Str) : Option Str :=
  match s.dropWhile (fun c => !c.isDigit) with
  | [] => none
  | c :: cs => some ((c :: cs).takeWhile Char.isDigit)

/-- First integer embedded in a string, as `int(re.search, digits)` at
line 36; `none` where Python raises `AttributeError`. -/
def firstNat (s : Str) : Option Nat := (firstDigitRun s).map natOfDigits

/-- Python `str.strip()`: drop whitespace from both ends. -/
def stripWS (s : Str) : Str :=
  ((s.dropWhile Char.isWhitespace).reverse.dropWhile Char.isWhitespace).reverse

/-- Fueled worker for whitespace tokenisation; the fuel only bounds the
recursion and `s.length` is always enough. -/
def splitWSF : Nat → Str → List Str
  | 0, _ => []
  | _ + 1, [] => []
  | fuel + 1, c :: cs =>
      if c.isWhitespace then splitWSF fuel cs
      else ((c :: cs).takeWhile (fun x => !x.isWhitespace)) ::
        splitWSF fuel (cs.dropWhile (fun x => !x.isWhitespace))

/-- Python `str.split()` with no argument: whitespace-separated tokens,
used for the pre-Model part of a table row (line 230). -/
def splitWS (s : Str) : List Str := splitWSF s.length s

/-- The function `mask_serial` (lines 11-20): the sentinel and strings
shorter than two characters pass unchanged, otherwise the first half is
replaced by asterisks. -/
def mask_serial (serial_number : Str) : Str :=
  if serial_number = naStr ∨ serial_number.length < 2 then serial_number
  else
    List.replicate (serial_number.length / 2) '*' ++
      serial_number.drop (serial_number.length / 2)

/-- Device classes distinguished by the threshold table at lines 39-42. -/
inductive DeviceType
  | drive
  | controller
deriving DecidableEq

/-- Red cutoff of the threshold table (lines 39-42). -/
def redThreshold : DeviceType → Nat
  | .drive => 60
  | .controller => 101

/-- Yellow cutoff of the threshold table (lines 39-42). -/
def yellowThreshold : DeviceType → Nat
  | .drive => 51
  | .controller => 51

/-- The function `colorize_temp` (lines 22-56): a string without the
degree marker, or without any digit, is returned unchanged; otherwise the
string is wrapped in the ANSI color chosen by the thresholds. -/
def colorize_temp (temp_str : Str) (device_type : DeviceType) : Str :=
  if containsSub degC temp_str = false then temp_str
  else
    match firstNat temp_str with
    | none => temp_str
    | some temp_val =>
        if redThreshold device_type ≤ temp_val then ansiRed ++ temp_str ++ ansiReset
        else if yellowThreshold device_type ≤ temp_val then ansiYellow ++ temp_str ++ ansiReset
        else ansiGreen ++ temp_str ++ ansiReset

/-- Severity classes named by the spec for the three branches of
`colorize_temp`. -/
inductive TempClass
  | normal
  | warning
  | critical
deriving DecidableEq

/-- The branch structure of `colorize_temp` (lines 47-52) as a
classifier. -/
def classifyTemp (temp_val : Nat) (device_type : DeviceType) : TempClass :=
  if redThreshold device_type ≤ temp_val then .critical
  else if yellowThreshold device_type ≤ temp_val then .warning
  else .normal

/-- Color used by each branch of `colorize_temp`. -/
def colorOf : TempClass → Str
  | .critical => ansiRed
  | .warning => ansiYellow
  | .normal => ansiGreen

/-- PCIe generation label from the raw link speed, the if-elif chain at
lines 83-87 of `get_controller_details`. -/
def pcieVer (speed_str : Str) : Str :=
  if (("16").data).isPrefixOf speed_str then ("4.0").data
  else if (("8").data).isPrefixOf speed_str then ("3.0").data
  else if (("5").data).isPrefixOf speed_str then ("2.0").data
  else if (("2.5").data).isPrefixOf speed_str then ("1.0").data
  else ("Unknown").data

/-- The fixed speed-to-generation table named by the spec. -/
def pcieGenTable : List (Str × Str) :=
  [((("16").data), ("4.0").data), ((("8").data), ("3.0").data),
   ((("5").data), ("2.0").data), ((("2.5").data), ("1.0").data)]

/-- Modelled from the spec: generation lookup as first exact-prefix match
in the fixed table, defaulting to the Unknown label. -/
def pcieVerSpec (speed_str : Str) : Str :=
  match pcieGenTable.find? (fun p => p.1.isPrefixOf speed_str) with
  | some p => p.2
  | none => ("Unknown").data

/-- Suffix of the haystack after the first occurrence of `needle`. -/
def findAfter (needle hay : Str) : Option Str :=
  (findSub needle hay).map (fun i => hay.drop (i + needle.length))

/-- The link-status search of `get_controller_details` (line 76): after
`LnkSta:` capture the digits-and-dots run before `GT/s` and the digit run
after `Width x`, mirroring the Python pattern on well-formed blocks. -/
def extractLnkSta (block : Str) : Option (Str × Str) :=
  match findAfter (("LnkSta:").data) block with
  | none => none
  | some r1 =>
      match findAfter (("Speed ").data) r1 with
      | none => none
      | some r2 =>
          let speed := r2.takeWhile (fun c => c.isDigit || c == '.')
          let r3 := r2.dropWhile (fun c => c.isDigit || c == '.')
          if speed.isEmpty then none
          else if (("GT/s").data).isPrefixOf r3 then
            match findAfter (("Width x").data) r3 with
            | none => none
            | some r4 =>
                match r4.takeWhile Char.isDigit with
                | [] => none
                | d :: ds => some (speed, 'x' :: (d :: ds))
          else none

/-- The bus-interface string built at line 89 from the captured speed and
width. -/
def busInterfaceOf (speed_str width : Str) : Str :=
  ("PCI Express ").data ++ pcieVer speed_str ++ (" ").data ++ width

/-- The OEM marker substring checked by the vendor fix (line 234). -/
def oemMarker : Str := ("DM00").data

/-- The vendor-rebranding correction at lines 234-235: a model starting
with the trigger letter and containing the OEM marker gets the corrective
letter prepended. -/
def vendorFix (model : Str) : Str :=
  if (("T").data).isPrefixOf model && containsSub oemMarker model then 'S' :: model
  else model

/-- Python `rstrip` with the space-and-hyphen character set (line 236). -/
def rstripSpaceDash (s : Str) : Str :=
  (s.reverse.dropWhile (fun c => c == ' ' || c == '-')).reverse

/-- Python `str.split` on a comma separator. -/
def commaSplit : Str → List Str
  | [] => [[]]
  | c :: cs =>
      let r := commaSplit cs
      if c == ',' then [] :: r else (c :: r.headD []) :: r.tail

/-- The model cleanup at lines 234-236: vendor fix, then truncation at the
first comma, then trailing space and hyphen removal. -/
def modelCleanup (model : Str) : Str :=
  rstripSpaceDash ((commaSplit (vendorFix model)).headD [])

/-- Modelled from the claim wording: keep the part before the first comma
and remove trailing spaces and hyphens, written with an independent
recursion for comparison with `modelCleanup`. -/
def trimTrailingSpec : Str → Str
  | [] => []
  | c :: cs =>
      let r := trimTrailingSpec cs
      if r.isEmpty && (c == ' ' || c == '-') then [] else c :: r

/-- Modelled from the claim wording: the whole vendor-string cleanup as the
specification states it. -/
def modelCleanupSpec (model : Str) : Str :=
  let m :=
    if (("T").data).isPrefixOf model && containsSub oemMarker model then 'S' :: model
    else model
  trimTrailingSpec (m.takeWhile (fun c => !(c == ',')))

/-- Per-slot attributes collected by `get_drive_details` (lines 129-156). -/
structure DriveDetail where
  sn : Str
  link_speed : Str
deriving DecidableEq

/-- One correlated drive record, the data carried by each entry of the
`devices` list built at lines 242-251. -/
structure DriveRecord where
  slotId : Str
  model : Str
  serialNumber : Str
  linkSpeed : Str
  temperature : Str
deriving DecidableEq

/-- Python dictionary lookup, embedded on association lists with unique
keys (dictionaries in the script are built keyed by slot id and by serial
number). -/
def lookupA {α : Type} (m : List (Str × α)) (k : Str) : Option α :=
  (m.find? (fun p => p.1 == k)).map Prod.snd

/-- The Model column span of the device table (lines 217-224): start at
the first offset of the column word, end at the first non-blank character
after its five letters; either search failing yields `none`, and line 224
then skips the table entirely. -/
def modelSpan (header : Str) : Option (Nat × Nat) :=
  match findSub (("Model").data) header with
  | none => none
  | some model_start =>
      match (header.drop (model_start + 5)).findIdx? (fun c => !c.isWhitespace) with
      | none => none
      | some j => some (model_start, model_start + 5 + j)

/-- Processing of one table body line (lines 229-251): blank lines and
lines with fewer than two pre-Model tokens or no embedded slot integer are
skipped; otherwise the record is built with every missing lookup replaced
by the sentinel, the temperature being joined on the serial number. -/
def processLine (model_start end_col : Nat) (bySlot : List (Str × DriveDetail))
    (temps : List (Str × Str)) (line : Str) : Option DriveRecord :=
  if stripWS line = [] then none
  else if 2 ≤ (splitWS (stripWS (line.take model_start))).length then
    match firstDigitRun ((splitWS (stripWS (line.take model_start))).headD []) with
    | none => none
    | some slot_id =>
        match lookupA bySlot slot_id with
        | some d =>
            some ⟨slot_id, modelCleanup (stripWS ((line.take end_col).drop model_start)),
              d.sn, d.link_speed, (lookupA temps d.sn).getD naStr⟩
        | none =>
            some ⟨slot_id, modelCleanup (stripWS ((line.take end_col).drop model_start)),
              naStr, naStr, (lookupA temps naStr).getD naStr⟩
  else none

/-- The correlation loop over the table body (lines 228-251), producing
one record per parseable line. -/
def correlate (model_start end_col : Nat) (bySlot : List (Str × DriveDetail))
    (temps : List (Str × Str)) (device_lines : List Str) : List DriveRecord :=
  device_lines.filterMap (processLine model_start end_col bySlot temps)

/-- Display form of a temperature value (line 247): the sentinel stays
bare, otherwise the degree marker is appended. -/
def tempDisplay (temp : Str) : Str := if temp = naStr then naStr else temp ++ degC

/-- The colored temperature field of a device line (lines 247-248). -/
def renderedTempField (temp : Str) : Str := colorize_temp (tempDisplay temp) DeviceType.drive

/-- The formatted device line appended at line 251. -/
def renderRecord (hide_serials : Bool) (r : DriveRecord) : Str :=
  ("  - Port ").data ++ r.slotId ++ (" Model: ").data ++ r.model ++
    (", SN: ").data ++ (if hide_serials then mask_serial r.serialNumber else r.serialNumber) ++
    (", Speed: ").data ++ r.linkSpeed ++ (", Temp: ").data ++ renderedTempField r.temperature

/-- Rendered device lines for the table body, as built by the loop at
lines 228-251. -/
def deviceLines (model_start end_col : Nat) (bySlot : List (Str × DriveDetail))
    (temps : List (Str × Str)) (hide_serials : Bool) (body : List Str) : List Str :=
  (correlate model_start end_col bySlot temps body).map (renderRecord hide_serials)

/-- Device-line extraction from a located header and table body
(lines 216-251): when the Model span cannot be determined the guard at
line 224 leaves the device list empty. -/
def tableDevices (header : Str) (body : List Str) (bySlot : List (Str × DriveDetail))
    (temps : List (Str × Str)) (hide_serials : Bool) : List Str :=
  match modelSpan header with
  | none => []
  | some (model_start, end_col) => deviceLines model_start end_col bySlot temps hide_serials body

/-- The literal scanned for by the sort key of line 283. -/
def portHdr : Str := ("Port ").data

/-- The sort key of line 283: the digits after the first occurrence of the
port word that is followed by at least one digit; `none` where the Python
match fails and `.group(1)` raises `AttributeError`. -/
def portKey : Str → Option Nat
  | [] => none
  | c :: cs =>
      if portHdr.isPrefixOf (c :: cs) then
        match ((c :: cs).drop 5).takeWhile Char.isDigit with
        | [] => portKey cs
        | d :: ds => some (natOfDigits (d :: ds))
      else portKey cs

/-- Total form of the sort key, used only on lines where the key exists. -/
def portKeyVal (s : Str) : Nat := (portKey s).getD 0

/-- The stable sort of line 283, keyed by the numeric port id. -/
def sortDevices (devices : List Str) : List Str :=
  List.insertionSort (fun a b => portKeyVal a ≤ portKeyVal b) devices

/-- Advisory pushed into the device list when storcli cannot be executed
(line 253). -/
def advisoryNoStorcli : Str := ("  - Could not execute storcli. Is it in your PATH?").data

/-- Line printed when the device list is empty (line 287). -/
def noDevicesLine : Str := ("  - No devices found or could not parse device list.").data

/-- The device-section printing step (lines 281-287): an empty list prints
the advisory, otherwise the list is sorted by the port key; a line without
a port key makes the sort key raise `AttributeError`, embedded as `none`
because no handler encloses the printing code. -/
def printDeviceSection (devices : List Str) : Option (List Str) :=
  if devices.isEmpty then some [noDevicesLine]
  else if devices.all (fun d => (portKey d).isSome) then some (sortDevices devices)
  else none

/-! ## Helper lemmas -/

theorem mask_of_guard {s : Str} (h : s = naStr ∨ s.length < 2) : mask_serial s = s := by
  unfold mask_serial
  rw [if_pos h]

theorem mask_eq_of {s : Str} (h1 : s ≠ naStr) (h2 : 2 ≤ s.length) :
    mask_serial s = List.replicate (s.length / 2) '*' ++ s.drop (s.length / 2) := by
  unfold mask_serial
  rw [if_neg]
  intro hc
  rcases hc with hc | hc
  · exact h1 hc
  · omega

theorem mask_length (s : Str) : (mask_serial s).length = s.length := by
  by_cases h : s = naStr ∨ s.length < 2
  · rw [mask_of_guard h]
  · push_neg at h
    rw [mask_eq_of h.1 (by omega)]
    rw [List.length_append, List.length_replicate, List.length_drop]
    omega

theorem mask_cons {s : Str} (h1 : s ≠ naStr) (h2 : 2 ≤ s.length) :
    ∃ k rest, mask_serial s = '*' :: rest ∧ s.length / 2 = k + 1 := by
  have hk : 1 ≤ s.length / 2 := by omega
  obtain ⟨k, hk⟩ : ∃ k, s.length / 2 = k + 1 := ⟨s.length / 2 - 1, by omega⟩
  refine ⟨k, List.replicate k '*' ++ s.drop (s.length / 2), ?_, hk⟩
  rw [mask_eq_of h1 h2, hk, List.replicate_succ, List.cons_append]

theorem mask_ne_na {s : Str} (h1 : s ≠ naStr) (h2 : 2 ≤ s.length) : mask_serial s ≠ naStr := by
  obtain ⟨k, rest, hmask, _⟩ := mask_cons h1 h2
  rw [hmask]
  intro hc
  have h3 : '*' = 'N' := by
    have h4 := congrArg (fun l => l.headD ' ') hc
    simp only [naStr] at h4
    exact h4
  exact absurd h3 (by decide)

/-! ## Claim theorems -/

/-- C4: for a serial of length at least two that is not the sentinel, the
masked serial keeps the length, its first half is asterisks and its second
half the original suffix; shorter strings and the sentinel pass
unchanged. -/
theorem c4_mask_serial_spec (s : Str) :
    (s ≠ naStr → 2 ≤ s.length →
      (mask_serial s).length = s.length ∧
      (mask_serial s).take (s.length / 2) = List.replicate (s.length / 2) '*' ∧
      (mask_serial s).drop (s.length / 2) = s.drop (s.length / 2)) ∧
    ((s = naStr ∨ s.length < 2) → mask_serial s = s) := by
  constructor
  · intro h1 h2
    refine ⟨mask_length s, ?_, ?_⟩
    · rw [mask_eq_of h1 h2]
      exact List.take_left' (List.length_replicate _ _)
    · rw [mask_eq_of h1 h2]
      exact List.drop_left' (List.length_replicate _ _)
  · exact mask_of_guard

/-- Witness for C4 at the concrete serial of the specification scenario. -/
theorem c4_mask_serial_spec_witness :
    (mask_serial (("ABC123").data)).length = (("ABC123").data).length ∧
    (mask_serial (("ABC123").data)).take 3 = List.replicate 3 '*' ∧
    (mask_serial (("ABC123").data)).drop 3 = (("ABC123").data).drop 3 :=
  (c4_mask_serial_spec (("ABC123").data)).1 (by decide) (by decide)

/-- C10: serial masking is idempotent. -/
theorem c10_mask_idempotent (s : Str) : mask_serial (mask_serial s) = mask_serial s := by
  by_cases h : s = naStr ∨ s.length < 2
  · rw [mask_of_guard h, mask_of_guard h]
  · push_neg at h
    obtain ⟨h1, h2⟩ := h
    replace h2 : 2 ≤ s.length := by omega
    have hne := mask_ne_na h1 h2
    have hlen := mask_length s
    have h2m : 2 ≤ (mask_serial s).length := by omega
    rw [mask_eq_of hne h2m, hlen]
    nth_rewrite 1 [mask_eq_of h1 h2]
    rw [List.drop_left' (List.length_replicate _ _), ← mask_eq_of h1 h2]

/-- C1: when storcli cannot be executed, the advisory line placed in the
device list has no port key, so the sort key of the presenter raises an
uncaught `AttributeError` and the run terminates instead of printing the
report (the claim that no error terminates the process fails on the
code). -/
theorem c1_tool_failure_advisory_crashes_presenter :
    portKey advisoryNoStorcli = none ∧ printDeviceSection [advisoryNoStorcli] = none :=
  ⟨by rfl, by rfl⟩

/-- Sample controller block of the end-to-end scenario of the spec. -/
def lnkStaSample : Str := ("LnkSta:\tSpeed 8.0GT/s, Width x8\n").data

/-- C5: the generation label is the first exact-prefix match in the fixed
table, defaulting to Unknown, and the scenario block with Speed 8.0GT/s
and Width x8 yields exactly the bus-interface string PCI Express 3.0 x8. -/
theorem c5_pcie_generation_label :
    (∀ speed_str : Str, pcieVer speed_str = pcieVerSpec speed_str) ∧
    extractLnkSta lnkStaSample = some ((("8.0").data), (("x8").data)) ∧
    busInterfaceOf (("8.0").data) (("x8").data) = ("PCI Express 3.0 x8").data := by
  refine ⟨?_, by rfl, by rfl⟩
  intro s
  simp only [pcieVer, pcieVerSpec, pcieGenTable, List.find?_cons]
  by_cases h16 : (("16").data).isPrefixOf s = true
  · simp [h16]
  · rw [Bool.not_eq_true] at h16
    by_cases h8 : (("8").data).isPrefixOf s = true
    · simp [h16, h8]
    · rw [Bool.not_eq_true] at h8
      by_cases h5 : (("5").data).isPrefixOf s = true
      · simp [h16, h8, h5]
      · rw [Bool.not_eq_true] at h5
        by_cases h25 : (("2.5").data).isPrefixOf s = true
        · simp [h16, h8, h5, h25]
        · rw [Bool.not_eq_true] at h25
          simp [h16, h8, h5, h25]

/-- C3 counterexample: a drive temperature of 59 classifies as warning,
not normal as the claim states. -/
theorem c3_drive_59_not_normal :
    classifyTemp 59 DeviceType.drive = TempClass.warning ∧
    TempClass.warning ≠ TempClass.normal :=
  ⟨by decide, by decide⟩

/-- C3 (amended: a drive temperature of 59 is warning): classification is
ordinal per device class, the coloring applied by `colorize_temp` is the
color of that class, and the concrete cutoffs hold. -/
theorem c3_classification_ordinal :
    (∀ (v : Nat) (dt : DeviceType), redThreshold dt ≤ v →
      classifyTemp v dt = TempClass.critical) ∧
    (∀ (v : Nat) (dt : DeviceType), yellowThreshold dt ≤ v → v < redThreshold dt →
      classifyTemp v dt = TempClass.warning) ∧
    (∀ (v : Nat) (dt : DeviceType), v < yellowThreshold dt →
      classifyTemp v dt = TempClass.normal) ∧
    (∀ (t : Str) (dt : DeviceType) (v : Nat), containsSub degC t = true →
      firstNat t = some v →
      colorize_temp t dt = colorOf (classifyTemp v dt) ++ t ++ ansiReset) ∧
    classifyTemp 59 DeviceType.drive = TempClass.warning ∧
    classifyTemp 51 DeviceType.drive = TempClass.warning ∧
    classifyTemp 60 DeviceType.drive = TempClass.critical ∧
    classifyTemp 100 DeviceType.controller = TempClass.warning ∧
    classifyTemp 101 DeviceType.controller = TempClass.critical := by
  refine ⟨?_, ?_, ?_, ?_, by decide, by decide, by decide, by decide, by decide⟩
  · intro v dt h
    simp [classifyTemp, h]
  · intro v dt h1 h2
    simp [classifyTemp, h1, Nat.not_le.mpr h2]
  · intro v dt h
    have hyr : yellowThreshold dt ≤ redThreshold dt := by cases dt <;> decide
    simp [classifyTemp, Nat.not_le.mpr h, Nat.not_le.mpr (by omega : v < redThreshold dt)]
  · intro t dt v h1 h2
    simp only [colorize_temp, h1, h2]
    simp only [Bool.true_eq_false, if_false]
    unfold classifyTemp
    split_ifs with hR hY <;> simp [colorOf]

/-- Witness for C3 at the amended concrete input 59 on the drive class. -/
theorem c3_classification_ordinal_witness :
    colorize_temp (("59°C").data) DeviceType.drive =
      colorOf (classifyTemp 59 DeviceType.drive) ++ ("59°C").data ++ ansiReset :=
  c3_classification_ordinal.2.2.2.1 (("59°C").data) DeviceType.drive 59 (by decide) (by decide)

/-- C9: a string without the degree marker passes `colorize_temp`
unchanged, the sentinel temperature renders as the bare sentinel with no
coloring, and the device line of such a record ends in the uncolored
sentinel temperature field. -/
theorem c9_unknown_temp_uncolored :
    (∀ (s : Str) (dt : DeviceType), containsSub degC s = false → colorize_temp s dt = s) ∧
    renderedTempField naStr = naStr ∧
    (∀ (hide_serials : Bool) (r : DriveRecord), r.temperature = naStr →
      (", Temp: N/A").data <:+ renderRecord hide_serials r) := by
  refine ⟨?_, by rfl, ?_⟩
  · intro s dt h
    simp [colorize_temp, h]
  · intro hide r h
    unfold renderRecord
    rw [h]
    have hfold : (", Temp: ").data ++ renderedTempField naStr = (", Temp: N/A").data := by rfl
    refine ⟨("  - Port ").data ++ r.slotId ++ (" Model: ").data ++ r.model ++
      (", SN: ").data ++ (if hide then mask_serial r.serialNumber else r.serialNumber) ++
      (", Speed: ").data ++ r.linkSpeed, ?_⟩
    simp only [List.append_assoc, hfold]

/-- Concrete record used by the C9 witness. -/
def recTempNA : DriveRecord := ⟨("7").data, ("M").data, naStr, naStr, naStr⟩

/-- Witness for C9 at a concrete record whose temperature lookup missed. -/
theorem c9_unknown_temp_uncolored_witness :
    colorize_temp naStr DeviceType.drive = naStr ∧
    (", Temp: N/A").data <:+ renderRecord true recTempNA :=
  ⟨c9_unknown_temp_uncolored.1 naStr DeviceType.drive (by decide),
   c9_unknown_temp_uncolored.2.2 true recTempNA (by decide)⟩

theorem commaSplit_headD (s : Str) :
    (commaSplit s).headD [] = s.takeWhile (fun c => !(c == ',')) := by
  induction s with
  | nil => rfl
  | cons c cs ih =>
      simp only [commaSplit, List.takeWhile_cons]
      by_cases h : (c == ',') = true
      · simp [h]
      · rw [Bool.not_eq_true] at h
        simp [h]
        simpa using ih

theorem rstrip_eq_trimTrailing (s : Str) : rstripSpaceDash s = trimTrailingSpec s := by
  induction s with
  | nil => rfl
  | cons c cs ih =>
      by_cases he : (cs.reverse.dropWhile (fun x => x == ' ' || x == '-')).isEmpty = true
      · have hnil : cs.reverse.dropWhile (fun x => x == ' ' || x == '-') = [] := by
          simpa [List.isEmpty_iff] using he
        have htrim : trimTrailingSpec cs = [] := by
          rw [← ih]
          unfold rstripSpaceDash
          rw [hnil]
          rfl
        unfold rstripSpaceDash
        rw [List.reverse_cons, List.dropWhile_append, if_pos he]
        simp only [trimTrailingSpec, htrim, List.isEmpty_nil, Bool.true_and]
        by_cases hc : (c == ' ' || c == '-') = true
        · simp [List.dropWhile_cons, hc]
        · rw [Bool.not_eq_true] at hc
          simp [List.dropWhile_cons, hc]
      · have hnil : cs.reverse.dropWhile (fun x => x == ' ' || x == '-') ≠ [] := by
          intro hc
          rw [hc] at he
          exact he rfl
        have htrim : trimTrailingSpec cs ≠ [] := by
          rw [← ih]
          unfold rstripSpaceDash
          intro hc
          rw [List.reverse_eq_nil_iff] at hc
          exact hnil hc
        unfold rstripSpaceDash
        rw [List.reverse_cons, List.dropWhile_append, if_neg he, List.reverse_append]
        simp only [List.reverse_cons, List.reverse_nil, List.nil_append, List.singleton_append]
        simp only [trimTrailingSpec]
        rw [List.isEmpty_eq_false_iff_exists_mem.mpr ?hmem]
        · simp only [Bool.false_and, if_false]
          rw [← ih]
          rfl
        · case hmem =>
            obtain ⟨x, hx⟩ := List.exists_mem_of_ne_nil _ htrim
            exact ⟨x, hx⟩

/-- C8: the vendor-string cleanup of the source equals the cleanup as the
specification words it: corrective letter prepended when the trigger
prefix and OEM marker are present, then truncation at the first comma and
removal of trailing spaces and hyphens. -/
theorem c8_vendor_cleanup_refines_spec (model : Str) :
    modelCleanup model = modelCleanupSpec model := by
  unfold modelCleanup modelCleanupSpec vendorFix
  rw [commaSplit_headD, rstrip_eq_trimTrailing]

theorem countP_key_eq_one {α β : Type} [BEq β] [LawfulBEq β] (f : α → β) :
    ∀ (l : List α), l.Pairwise (fun a b => f a ≠ f b) →
      ∀ r ∈ l, l.countP (fun x => f x == f r) = 1 := by
  intro l
  induction l with
  | nil =>
      intro _ r hr
      cases hr
  | cons a l ih =>
      intro h r hr
      rw [List.pairwise_cons] at h
      rw [List.countP_cons]
      rcases List.mem_cons.mp hr with rfl | hmem
      · have hz : l.countP (fun x => f x == f r) = 0 := by
          refine List.countP_eq_zero.mpr ?_
          intro b hb
          simp [Ne.symm (h.1 b hb)]
        simp [hz]
      · have h1 := ih h.2 r hmem
        have hfa : (f a == f r) = false := by
          simp [h.1 r hmem]
        simp [h1, hfa]

/-- C2 (amended: only slots extracted from the columnar table produce
records): each parseable table line contributes its record to the
correlated list, a record occurs exactly once when slot ids are pairwise
distinct, and every lookup miss leaves the sentinel — serial and link
speed missing by slot, temperature missing by serial. -/
theorem c2_table_slots_correlated :
    (∀ (model_start end_col : Nat) (bySlot : List (Str × DriveDetail))
        (temps : List (Str × Str)) (device_lines : List Str) (line : Str) (r : DriveRecord),
        line ∈ device_lines →
        processLine model_start end_col bySlot temps line = some r →
        r ∈ correlate model_start end_col bySlot temps device_lines) ∧
    (∀ (model_start end_col : Nat) (bySlot : List (Str × DriveDetail))
        (temps : List (Str × Str)) (device_lines : List Str),
        (correlate model_start end_col bySlot temps device_lines).Pairwise
          (fun a b => a.slotId ≠ b.slotId) →
        ∀ r ∈ correlate model_start end_col bySlot temps device_lines,
          (correlate model_start end_col bySlot temps device_lines).countP
            (fun x => x.slotId == r.slotId) = 1) ∧
    (∀ (model_start end_col : Nat) (bySlot : List (Str × DriveDetail))
        (temps : List (Str × Str)) (line : Str) (r : DriveRecord),
        processLine model_start end_col bySlot temps line = some r →
        (lookupA bySlot r.slotId = none → r.serialNumber = naStr ∧ r.linkSpeed = naStr) ∧
        (lookupA temps r.serialNumber = none → r.temperature = naStr)) := by
  refine ⟨?_, ?_, ?_⟩
  · intro ms ec bySlot temps lines line r hline h
    unfold correlate
    exact List.mem_filterMap.mpr ⟨line, hline, h⟩
  · intro ms ec bySlot temps lines hp r hr
    exact countP_key_eq_one (fun x => x.slotId) _ hp r hr
  · intro ms ec bySlot temps line r h
    unfold processLine at h
    split at h
    · exact absurd h (by simp)
    · split at h
      · split at h
        · exact absurd h (by simp)
        · rename_i slot_id heq
          split at h
          · rename_i d hd
            injection h with h
            subst h
            constructor
            · intro hnone
              rw [hd] at hnone
              exact absurd hnone (by simp)
            · intro hnone
              simp only at hnone ⊢
              rw [hnone]
              rfl
          · rename_i hd
            injection h with h
            subst h
            constructor
            · intro _
              exact ⟨rfl, rfl⟩
            · intro hnone
              simp only at hnone ⊢
              rw [hnone]
              rfl
      · exact absurd h (by simp)

/-- Header of the concrete table scenario, with a column after Model. -/
def hdrFull : Str := ("EID:Slt DID State Model  Sp").data

/-- Body row of the concrete table scenario, slot id 3. -/
def rowSlot3 : Str := ("3:0     10 Onln   MODELA Sp").data

/-- Record extracted from `rowSlot3` with no enrichment available. -/
def recSlot3 : DriveRecord := ⟨("3").data, ("MODELA").data, naStr, naStr, naStr⟩

/-- Witness for C2: the concrete row for slot 3 parses, its record is in
the correlated list, and with empty maps every field degrades to the
sentinel. -/
theorem c2_table_slots_correlated_witness :
    recSlot3 ∈ correlate 18 25 [] [] [rowSlot3] ∧
    (recSlot3.serialNumber = naStr ∧ recSlot3.linkSpeed = naStr) ∧
    recSlot3.temperature = naStr :=
  ⟨c2_table_slots_correlated.1 18 25 [] [] [rowSlot3] rowSlot3 recSlot3 (by simp) (by rfl),
   (c2_table_slots_correlated.2.2 18 25 [] [] rowSlot3 recSlot3 (by rfl)).1 (by rfl),
   (c2_table_slots_correlated.2.2 18 25 [] [] rowSlot3 recSlot3 (by rfl)).2 (by rfl)⟩

/-- Per-slot attribute map naming a slot absent from the table. -/
def attrOnlySlot : List (Str × DriveDetail) :=
  [((("5").data), ⟨("SER5").data, ("6Gb/s").data⟩)]

/-- C2 counterexample: slot 5 is present in the per-slot attribute map but
not in the columnar table, and the correlated list contains no record for
it — the claim that every slot of either source yields a record fails. -/
theorem c2_attr_map_slot_dropped :
    lookupA attrOnlySlot (("5").data) ≠ none ∧
    (correlate 18 25 attrOnlySlot [] [rowSlot3]).map DriveRecord.slotId = [("3").data] :=
  ⟨by decide, by rfl⟩

/-- C6 counterexample: under a header with no non-blank token after the
Model word, the table is skipped and no rows are extracted, although the
same row is extracted under a header with a following column. -/
theorem c6_no_token_after_model_skips_table :
    modelSpan (("EID:Slt DID State Model").data) = none ∧
    tableDevices (("EID:Slt DID State Model").data) [rowSlot3] [] [] true = [] ∧
    tableDevices hdrFull [rowSlot3] [] [] true ≠ [] :=
  ⟨by rfl, by rfl, by decide⟩

/-- C6 (amended: with no non-blank token after the Model word the table is
not parsed at all): a computed span starts at the first header offset of
the Model word and ends at the first non-blank header character after its
five letters, and a missing span leaves the device list empty. -/
theorem c6_model_column_span :
    (∀ (header : Str) (a b : Nat), modelSpan header = some (a, b) →
      findSub (("Model").data) header = some a ∧
      a + 5 ≤ b ∧ b < header.length ∧
      (∀ k, a + 5 ≤ k → k < b → ∃ c, header[k]? = some c ∧ c.isWhitespace = true) ∧
      (∃ c, header[b]? = some c ∧ c.isWhitespace = false)) ∧
    (∀ (header : Str) (body : List Str) (bySlot : List (Str × DriveDetail))
        (temps : List (Str × Str)) (hide_serials : Bool),
      modelSpan header = none →
      tableDevices header body bySlot temps hide_serials = []) := by
  constructor
  · intro header a b h
    unfold modelSpan at h
    split at h
    · exact absurd h (by simp)
    · rename_i msi hf
      split at h
      · exact absurd h (by simp)
      · rename_i j hj
        injection h with h
        rw [Prod.mk.injEq] at h
        obtain ⟨rfl, rfl⟩ := h
        rw [List.findIdx?_eq_some_iff_findIdx_eq] at hj
        obtain ⟨hjlt, hjeq⟩ := hj
        rw [List.length_drop] at hjlt
        refine ⟨hf, by omega, by omega, ?_, ?_⟩
        · intro k hk1 hk2
          have hi : k - (msi + 5) < (header.drop (msi + 5)).length := by
            rw [List.length_drop]
            omega
          have hidx : k - (msi + 5) < (header.drop (msi + 5)).findIdx
              (fun c => !c.isWhitespace) := by
            rw [hjeq]
            omega
          have hp := List.not_of_lt_findIdx hidx
          refine ⟨(header.drop (msi + 5)).get ⟨k - (msi + 5), hi⟩, ?_, ?_⟩
          · have : (header.drop (msi + 5))[k - (msi + 5)]? =
                header[(msi + 5) + (k - (msi + 5))]? := List.getElem?_drop _ _ _
            rw [show (msi + 5) + (k - (msi + 5)) = k by omega] at this
            rw [← this]
            exact (List.getElem?_eq_getElem hi).trans (by simp [List.get_eq_getElem])
          · simpa using hp
        · have hb : j < (header.drop (msi + 5)).length := by
            rw [List.length_drop]
            omega
          have hp : (fun c => !c.isWhitespace)
              ((header.drop (msi + 5)).get ⟨j, hb⟩) = true := by
            have := @List.findIdx_getElem _ (fun c => !c.isWhitespace)
              (header.drop (msi + 5)) (by rw [hjeq]; exact hb)
            simpa [hjeq, List.get_eq_getElem] using this
          refine ⟨(header.drop (msi + 5)).get ⟨j, hb⟩, ?_, ?_⟩
          · have : (header.drop (msi + 5))[j]? = header[(msi + 5) + j]? :=
              List.getElem?_drop _ _ _
            rw [← this]
            exact (List.getElem?_eq_getElem hb).trans (by simp [List.get_eq_getElem])
          · simpa using hp
  · intro header body bySlot temps hide h
    unfold tableDevices
    rw [h]

/-- Witness for C6 at the concrete header whose Model column spans
offsets 18 to 25. -/
theorem c6_model_column_span_witness :
    findSub (("Model").data) hdrFull = some 18 ∧ 18 + 5 ≤ 25 :=
  ⟨(c6_model_column_span.1 hdrFull 18 25 (by rfl)).1,
   (c6_model_column_span.1 hdrFull 18 25 (by rfl)).2.1⟩

theorem takeWhile_all_append {p : Char → Bool} (l₁ : Str) (c : Char) (l₂ : Str)
    (h : ∀ x ∈ l₁, p x = true) (hc : p c = false) :
    (l₁ ++ c :: l₂).takeWhile p = l₁ := by
  induction l₁ with
  | nil => simp [List.takeWhile_cons, hc]
  | cons a l ih =>
      have ha : p a = true := h a (by simp)
      simp only [List.cons_append, List.takeWhile_cons, ha, if_true]
      rw [ih (fun x hx => h x (by simp [hx]))]

theorem portKey_cons_skip {c : Char} {cs : Str} (h : portHdr.isPrefixOf (c :: cs) = false) :
    portKey (c :: cs) = portKey cs := by
  rw [portKey, h]
  simp

theorem portKey_cons_hit {cs : Str} {d : Char} {ds : Str}
    (h : (('P' :: 'o' :: 'r' :: 't' :: ' ' :: cs).drop 5).takeWhile Char.isDigit = d :: ds) :
    portKey ('P' :: 'o' :: 'r' :: 't' :: ' ' :: cs) = some (natOfDigits (d :: ds)) := by
  rw [portKey]
  have hp : portHdr.isPrefixOf ('P' :: 'o' :: 'r' :: 't' :: ' ' :: cs) = true := by
    simp [portHdr, List.isPrefixOf]
  rw [hp, h]
  simp

theorem portKey_render (hide_serials : Bool) (r : DriveRecord)
    (hne : r.slotId ≠ []) (hdig : ∀ c ∈ r.slotId, c.isDigit = true) :
    portKey (renderRecord hide_serials r) = some (natOfDigits r.slotId) := by
  obtain ⟨d, ds, hslot⟩ : ∃ d ds, r.slotId = d :: ds := by
    cases hs : r.slotId with
    | nil => exact absurd hs hne
    | cons d ds => exact ⟨d, ds, rfl⟩
  have hrest : renderRecord hide_serials r =
      ' ' :: ' ' :: '-' :: ' ' :: 'P' :: 'o' :: 'r' :: 't' :: ' ' ::
        ((d :: ds) ++ (' ' :: ((("Model: ").data ++ r.model ++
          (", SN: ").data ++
          (if hide_serials then mask_serial r.serialNumber else r.serialNumber) ++
          (", Speed: ").data ++ r.linkSpeed ++ (", Temp: ").data ++
          renderedTempField r.temperature)))) := by
    unfold renderRecord
    rw [hslot]
    simp [List.append_assoc]
  rw [hrest, hslot]
  rw [portKey_cons_skip (by simp [portHdr, List.isPrefixOf]),
      portKey_cons_skip (by simp [portHdr, List.isPrefixOf]),
      portKey_cons_skip (by simp [portHdr, List.isPrefixOf]),
      portKey_cons_skip (by simp [portHdr, List.isPrefixOf])]
  refine portKey_cons_hit ?_
  show ((d :: ds) ++ _).takeWhile Char.isDigit = d :: ds
  refine takeWhile_all_append (d :: ds) ' ' _ ?_ (by decide)
  intro x hx
  exact hdig x (hslot ▸ hx)

/-- C7: the rendered device lines, sorted by the numeric port key, are a
permutation of the input emitted strictly ascending by the integer value
of the slot id when slot ids are numerically distinct. -/
theorem c7_sort_numeric_ascending (recs : List DriveRecord) (hide_serials : Bool)
    (hslots : ∀ r ∈ recs, r.slotId ≠ [] ∧ ∀ c ∈ r.slotId, c.isDigit = true)
    (hdist : recs.Pairwise (fun a b => natOfDigits a.slotId ≠ natOfDigits b.slotId)) :
    List.Perm (sortDevices (recs.map (renderRecord hide_serials)))
      (recs.map (renderRecord hide_serials)) ∧
    (sortDevices (recs.map (renderRecord hide_serials))).Pairwise
      (fun a b => portKeyVal a < portKeyVal b) := by
  have hperm : List.Perm (sortDevices (recs.map (renderRecord hide_serials)))
      (recs.map (renderRecord hide_serials)) := List.perm_insertionSort _ _
  refine ⟨hperm, ?_⟩
  letI : IsTotal Str (fun a b => portKeyVal a ≤ portKeyVal b) :=
    ⟨fun a b => Nat.le_total _ _⟩
  letI : IsTrans Str (fun a b => portKeyVal a ≤ portKeyVal b) :=
    ⟨fun a b c h1 h2 => Nat.le_trans h1 h2⟩
  have hsorted : (sortDevices (recs.map (renderRecord hide_serials))).Pairwise
      (fun a b => portKeyVal a ≤ portKeyVal b) := List.sorted_insertionSort _ _
  have hne0 : (recs.map (renderRecord hide_serials)).Pairwise
      (fun a b => portKeyVal a ≠ portKeyVal b) := by
    rw [List.pairwise_map]
    refine hdist.imp_of_mem ?_
    intro a b ha hb hab hEq
    apply hab
    have h1 := portKey_render hide_serials a (hslots a ha).1 (hslots a ha).2
    have h2 := portKey_render hide_serials b (hslots b hb).1 (hslots b hb).2
    simpa [portKeyVal, h1, h2] using hEq
  have hne : (sortDevices (recs.map (renderRecord hide_serials))).Pairwise
      (fun a b => portKeyVal a ≠ portKeyVal b) :=
    (hperm.pairwise_iff (fun h => Ne.symm h)).mpr hne0
  exact (hsorted.and hne).imp (fun h => lt_of_le_of_ne h.1 h.2)

/-- Record with slot id 10, for the C7 witness. -/
def recSlot10 : DriveRecord := ⟨("10").data, ("MB").data, naStr, naStr, naStr⟩

/-- Record with slot id 2, for the C7 witness. -/
def recSlot2 : DriveRecord := ⟨("2").data, ("MA").data, naStr, naStr, naStr⟩

/-- Witness for C7: slot 2 is emitted before slot 10 although it was
extracted after it. -/
theorem c7_sort_numeric_ascending_witness :
    (List.Perm (sortDevices ([recSlot10, recSlot2].map (renderRecord true)))
      ([recSlot10, recSlot2].map (renderRecord true)) ∧
    (sortDevices ([recSlot10, recSlot2].map (renderRecord true))).Pairwise
      (fun a b => portKeyVal a < portKeyVal b)) ∧
    sortDevices ([recSlot10, recSlot2].map (renderRecord true)) =
      [renderRecord true recSlot2, renderRecord true recSlot10] :=
  ⟨c7_sort_numeric_ascending [recSlot10, recSlot2] true (by decide) (by decide), by rfl⟩
